import Mathlib

/-!
Shallow embedding of squangle/mysql_client/AsyncMysqlClient.cpp.

Stateful C++ is modelled as explicit state passing on Lean structures;
side effects that matter to the properties below (lock acquisitions,
operations being cancelled, threads being joined, closures being
scheduled on the reactor) are recorded in explicit event traces.
-/

namespace Squangle

/-- Operation states (Operation.h): Unstarted, Pending, Cancelling, Completed. -/
inductive OperationState where
  | Unstarted
  | Pending
  | Cancelling
  | Completed
deriving DecidableEq, Repr

/-- Kinds of operations constructed in AsyncMysqlClient.cpp. -/
inductive OpKind where
  | QueryOp
  | MultiQueryOp
  | MultiQueryStreamOp
  | ResetOp
  | ChangeUserOp
  | ConnectOp
deriving DecidableEq, Repr

/-- An Operation as far as the file under verification observes it:
its kind, its query payload, its state, whether cancel() has been
invoked on it, its async-client error slot and its armed timeout
(milliseconds; none means no timeout armed). -/
structure Operation where
  kind : OpKind
  queries : List String
  state : OperationState
  cancelled : Bool
  asyncClientError : Option String
  timeout : Option Int
deriving DecidableEq, Repr

/-- Modelled from the spec: Operation::cancel lives in Operation.cpp,
which is not among the given sources. Per the spec, cancellation during
Unstarted is immediate (the operation reaches Completed with no reactor
interaction), a Completed operation cannot be resurrected, and otherwise
a cancel request sets the state to Cancelling. -/
def Operation.cancel (op : Operation) : Operation :=
  match op.state with
  | OperationState.Unstarted =>
      { op with state := OperationState.Completed, cancelled := true }
  | OperationState.Completed => op
  | _ => { op with state := OperationState.Cancelling, cancelled := true }

/-- Modelled from the spec: Operation::setAsyncClientError lives in
Operation.cpp, which is not among the given sources. It records a client
error message in the operation's error slot. -/
def Operation.setAsyncClientError (op : Operation) (msg : String) : Operation :=
  { op with asyncClientError := some msg }

/-- Client state observed by AsyncMysqlClient.cpp: the pending-operation
set (kept in sweep order), the block-new-operations flag, the
active-connection counter, the shutdown flag, and the two quantities the
shutdown invariant checks inspect. -/
structure ClientState where
  pending_operations : List Operation
  block_operations : Bool
  active_connection_counter : Nat
  is_shutdown : Bool
  started_and_open_connections : Nat
  connection_references : Nat
deriving DecidableEq, Repr

/-- Events emitted by AsyncMysqlClient::drain, in program order: lock
operations on the two mutexes, the write of the block flag, one cancel
event per removed unstarted operation, and the condition-variable wait. -/
inductive DrainEvent where
  | acquirePendingLock
  | setBlockFlag
  | cancelUnstarted (op : Operation)
  | releasePendingLock
  | acquireCountersLock
  | cvWaitUntilZero
  | releaseCountersLock
deriving DecidableEq, Repr

/-- True exactly on cancelUnstarted events. -/
def DrainEvent.isCancelEvent : DrainEvent → Bool
  | DrainEvent.cancelUnstarted _ => true
  | _ => false

/-- The while loop of AsyncMysqlClient::drain over pending_operations_:
operations in state Unstarted are cancelled and erased, all others are
kept. Returns the remaining list and the cancelled operations, both in
traversal order. -/
def drainSweep : List Operation → List Operation × List Operation
  | [] => ([], [])
  | op :: rest =>
      let (remaining, cancelled) := drainSweep rest
      if op.state = OperationState.Unstarted then
        (remaining, op.cancel :: cancelled)
      else
        (op :: remaining, cancelled)

/-- The condition-variable wait of drain: the counter is mutated by
other threads, so its successive observed values are supplied as a list;
the wait returns (with the observed value) as soon as a value equal to 0
is observed, and is modelled as failing (none) if the supplied
observations run out first. -/
def waitForZero : Nat → List Nat → Option Nat
  | 0, _ => some 0
  | Nat.succ _, [] => none
  | Nat.succ _, v :: rest => waitForZero v rest

/-- AsyncMysqlClient::drain: under the pending-operations mutex, store
also_block_operations into block_operations_ and sweep the pending set;
then, under the counters mutex only, wait on
active_connections_closed_cv_ until the active-connection counter is 0.
Returns the new state, the cancelled operations and the event trace. -/
def drain (s : ClientState) (also_block_operations : Bool)
    (counterUpdates : List Nat) :
    Option (ClientState × List Operation × List DrainEvent) :=
  let s1 := { s with block_operations := also_block_operations }
  let (remaining, cancelledOps) := drainSweep s1.pending_operations
  let s2 := { s1 with pending_operations := remaining }
  match waitForZero s2.active_connection_counter counterUpdates with
  | none => none
  | some c =>
      some ({ s2 with active_connection_counter := c }, cancelledOps,
        [DrainEvent.acquirePendingLock, DrainEvent.setBlockFlag] ++
          cancelledOps.map DrainEvent.cancelUnstarted ++
          [DrainEvent.releasePendingLock, DrainEvent.acquireCountersLock,
           DrainEvent.cvWaitUntilZero, DrainEvent.releaseCountersLock])

/-- Pairs every event of a trace with the (pending-lock held,
counters-lock held) pair in effect while that event executes, starting
from the given lock states. -/
def lockTrace : List DrainEvent → Bool → Bool →
    List (DrainEvent × Bool × Bool)
  | [], _, _ => []
  | e :: rest, p, c =>
      let p2 := match e with
        | DrainEvent.acquirePendingLock => true
        | DrainEvent.releasePendingLock => false
        | _ => p
      let c2 := match e with
        | DrainEvent.acquireCountersLock => true
        | DrainEvent.releaseCountersLock => false
        | _ => c
      (e, p2, c2) :: lockTrace rest p2 c2

/-- Lock discipline for one annotated event: the two mutexes are never
both held; the block-flag write and every cancellation happen under the
pending lock alone; the condition-variable wait happens under the
counters lock alone. -/
def safeEntry (x : DrainEvent × Bool × Bool) : Prop :=
  ¬(x.2.1 = true ∧ x.2.2 = true) ∧
  (x.1 = DrainEvent.setBlockFlag → x.2.1 = true ∧ x.2.2 = false) ∧
  (x.1.isCancelEvent = true → x.2.1 = true ∧ x.2.2 = false) ∧
  (x.1 = DrainEvent.cvWaitUntilZero → x.2.1 = false ∧ x.2.2 = true)

instance (x : DrainEvent × Bool × Bool) : Decidable (safeEntry x) := by
  unfold safeEntry
  infer_instance

/-- A drain trace obeys the lock discipline at every event, starting
with both locks free. -/
def drainLockSafe (tr : List DrainEvent) : Prop :=
  ∀ x ∈ lockTrace tr false false, safeEntry x

instance (tr : List DrainEvent) : Decidable (drainLockSafe tr) := by
  unfold drainLockSafe
  infer_instance

/-- Steps performed by AsyncMysqlClient::shutdownClient, in program
order. -/
inductive ShutdownAction where
  | drainPhase (also_block_operations : Bool)
  | checkStartedAndOpenIsZero
  | checkConnectionReferencesEmpty
  | terminateLoopSoon
  | joinThread
  | logErrorShutdownFromReactor
  | detachThread
deriving DecidableEq, Repr

/-- AsyncMysqlClient::shutdownClient. The atomic is_shutdown_.exchange
guard makes any call after the first return at once with no actions.
The first call drains twice (first without, then with blocking of new
operations), checks that numStartedAndOpenConnections() is 0 and that
connection_references_ is empty (the CHECK and DCHECK; a failed check is
a fatal abort, modelled as none), instructs the event loop to terminate,
and then joins the reactor thread, unless running on the reactor thread
itself, in which case it logs an error and detaches it. The
onReactorThread flag stands for std::this_thread::get_id() == threadId().
The two update lists feed the two condition-variable waits. -/
def shutdownClient (s : ClientState) (onReactorThread : Bool)
    (counterUpdates1 counterUpdates2 : List Nat) :
    Option (ClientState × List ShutdownAction) :=
  if s.is_shutdown then
    some (s, [])
  else
    let s0 := { s with is_shutdown := true }
    match drain s0 false counterUpdates1 with
    | none => none
    | some (s1, _, _) =>
        match drain s1 true counterUpdates2 with
        | none => none
        | some (s2, _, _) =>
            if s2.started_and_open_connections ≠ 0 then none
            else if s2.connection_references ≠ 0 then none
            else
              some (s2,
                [ShutdownAction.drainPhase false, ShutdownAction.drainPhase true,
                 ShutdownAction.checkStartedAndOpenIsZero,
                 ShutdownAction.checkConnectionReferencesEmpty,
                 ShutdownAction.terminateLoopSoon] ++
                (if onReactorThread then
                  [ShutdownAction.logErrorShutdownFromReactor,
                   ShutdownAction.detachThread]
                 else [ShutdownAction.joinThread]))

/-- The ConnectionOptions fields read in AsyncMysqlClient.cpp.
Durations are counted in milliseconds; the arming guards in the source
compare duration.count() with 0. -/
structure ConnectionOptions where
  queryTimeoutMs : Int
  connectTimeoutMs : Int
  enableResetConnBeforeClose : Bool
  enableDelayedResetConn : Bool
deriving DecidableEq, Repr

/-- One second, in the millisecond count used for durations here
(std::chrono::seconds(1) added to a timeout in Connection::changeUser). -/
def oneSecondMs : Int := 1000

/-- A Connection as observed by AsyncMysqlClient.cpp: whether
mysql_connection_ (the holder) is present, whether ok() holds, whether a
dying callback is set, the needToCloneConnection_, reusable and
in-transaction flags, the operation-in-progress flag checked by
checkOperationInProgress, and its options. -/
structure Connection where
  hasHolder : Bool
  connOk : Bool
  hasDyingCallback : Bool
  needToCloneConnection : Bool
  reusable : Bool
  inTransaction : Bool
  operation_in_progress : Bool
  conn_options : ConnectionOptions
deriving DecidableEq, Repr

deriving instance DecidableEq for Except

/-- Exceptions thrown by the functions modelled here. -/
inductive SquangleException where
  | invalidConnection
  | operationInProgress
  | operationState
deriving DecidableEq, Repr

/-- Client- and handler-registration effects performed while an
operation is being constructed or scheduled. -/
inductive BeginEffect where
  | addOperation
  | setSocketHandlerOperation
  | runOperation
deriving DecidableEq, Repr

/-- The error message given to a MultiQuery constructed from an empty
vector of queries. -/
def emptyQueriesErrorMessage : String := "Given vector of queries is empty"

/-- Connection::beginAnyQuery: after the CHECK_THROW validity guards and
checkOperationInProgress, build the operation, arm the query timeout
when it is strictly positive, add the operation to the client's pending
set and bind it to the socket handler. Returns the operation and the
effects performed, in order. -/
def beginAnyQuery (conn : Connection) (kind : OpKind)
    (queries : List String) :
    Except SquangleException (Operation × List BeginEffect) :=
  if !conn.connOk then
    Except.error SquangleException.invalidConnection
  else if conn.operation_in_progress then
    Except.error SquangleException.operationInProgress
  else
    let timeout := conn.conn_options.queryTimeoutMs
    let ret : Operation :=
      { kind := kind, queries := queries,
        state := OperationState.Unstarted, cancelled := false,
        asyncClientError := none,
        timeout := if 0 < timeout then some timeout else none }
    Except.ok (ret,
      [BeginEffect.addOperation, BeginEffect.setSocketHandlerOperation])

/-- Connection::beginMultiQuery on a vector of queries: record whether
the vector is empty, construct via beginAnyQuery, and if it was empty,
set the async client error and cancel the operation before returning it. -/
def beginMultiQuery (conn : Connection) (queries : List String) :
    Except SquangleException (Operation × List BeginEffect) :=
  let is_queries_empty := queries.isEmpty
  match beginAnyQuery conn OpKind.MultiQueryOp queries with
  | Except.error e => Except.error e
  | Except.ok (operation, effects) =>
      if is_queries_empty then
        Except.ok
          ((operation.setAsyncClientError emptyQueriesErrorMessage).cancel,
            effects)
      else
        Except.ok (operation, effects)

/-- Connection::beginMultiQueryStreaming on a vector of queries: same
shape as beginMultiQuery with a streaming operation. -/
def beginMultiQueryStreaming (conn : Connection) (queries : List String) :
    Except SquangleException (Operation × List BeginEffect) :=
  let is_queries_empty := queries.isEmpty
  match beginAnyQuery conn OpKind.MultiQueryStreamOp queries with
  | Except.error e => Except.error e
  | Except.ok (operation, effects) =>
      if is_queries_empty then
        Except.ok
          ((operation.setAsyncClientError emptyQueriesErrorMessage).cancel,
            effects)
      else
        Except.ok (operation, effects)

/-- Connection::beginMultiQuery single-query overload: delegates to the
vector overload on the one-element vector. -/
def beginMultiQuerySingle (conn : Connection) (query : String) :
    Except SquangleException (Operation × List BeginEffect) :=
  beginMultiQuery conn [query]

/-- Connection::beginMultiQueryStreaming single-query overload:
delegates to the vector overload on the one-element vector. -/
def beginMultiQueryStreamingSingle (conn : Connection) (query : String) :
    Except SquangleException (Operation × List BeginEffect) :=
  beginMultiQueryStreaming conn [query]

/-- The operation-construction core of the blocking
Connection::multiQuery on a vector of queries: beginAnyQuery on a
MultiQueryOperation over a referenced connection. -/
def multiQuery (conn : Connection) (queries : List String) :
    Except SquangleException (Operation × List BeginEffect) :=
  beginAnyQuery conn OpKind.MultiQueryOp queries

/-- The blocking Connection::multiQuery single-query overload: delegates
to the vector overload on the one-element vector. -/
def multiQuerySingle (conn : Connection) (query : String) :
    Except SquangleException (Operation × List BeginEffect) :=
  multiQuery conn [query]

/-- Connection::resetConn: build a ResetOperation, arm the query timeout
when strictly positive, and bind the operation to the socket handler.
Deliberately does not add the operation to the client's pending set. -/
def resetConn (conn : Connection) : Operation × List BeginEffect :=
  let timeout := conn.conn_options.queryTimeoutMs
  let resetOperationPtr : Operation :=
    { kind := OpKind.ResetOp, queries := [],
      state := OperationState.Unstarted, cancelled := false,
      asyncClientError := none,
      timeout := if 0 < timeout then some timeout else none }
  (resetOperationPtr, [BeginEffect.setSocketHandlerOperation])

/-- Connection::changeUser: build a ChangeUserOperation, and when the
connection timeout is strictly positive arm it plus one second, then
bind the operation to the socket handler. -/
def changeUser (conn : Connection) (user password database : String) :
    Operation × List BeginEffect :=
  let timeout := conn.conn_options.connectTimeoutMs
  let changeUserOperationPtr : Operation :=
    { kind := OpKind.ChangeUserOp, queries := [user, password, database],
      state := OperationState.Unstarted, cancelled := false,
      asyncClientError := none,
      timeout := if 0 < timeout then some (timeout + oneSecondMs) else none }
  (changeUserOperationPtr, [BeginEffect.setSocketHandlerOperation])

/-- Actions taken by the Connection destructor, in program order. -/
inductive DtorAction where
  | stealHolder
  | constructClone
  | moveDyingCallbackToClone
  | scheduleOnReactor (closure : List BeginEffect)
  | waitForReset
  | markNeedsResetBeforeReuse
  | invokeDyingCallback
  | closeNativeHandle
deriving DecidableEq, Repr

/-- The guard of the reset-before-recycle branch of the Connection
destructor: mysql_connection_ and conn_dying_callback_ present, clone
requested, connection reusable, not in a transaction, and
reset-before-close enabled. -/
def resetBranchCond (conn : Connection) : Bool :=
  conn.hasHolder && conn.hasDyingCallback && conn.needToCloneConnection &&
    conn.reusable && !conn.inTransaction &&
    conn.conn_options.enableResetConnBeforeClose

/-- The Connection destructor. Under the reset branch: outside the
reactor thread, the holder is stolen into a fresh clone whose dying
callback is moved from this object, a reset closure (addOperation then
run) is scheduled on the reactor via runInThread (which always returns
true in the source, so the destructor then waits for the reset); on the
reactor thread with delayed reset enabled, the holder is marked
needs-reset-before-reuse in place. Afterwards, if the holder and dying
callback are still present, the holder is handed to the dying callback;
a holder with no callback is destroyed, closing the native handle. -/
def connectionDtor (conn : Connection) (isInEventBaseThread : Bool) :
    List DtorAction :=
  let step1 :=
    if resetBranchCond conn then
      if !isInEventBaseThread then
        ([DtorAction.stealHolder, DtorAction.constructClone,
          DtorAction.moveDyingCallbackToClone,
          DtorAction.scheduleOnReactor
            [BeginEffect.addOperation, BeginEffect.runOperation],
          DtorAction.waitForReset], false, false)
      else if conn.conn_options.enableDelayedResetConn then
        ([DtorAction.markNeedsResetBeforeReuse],
          conn.hasHolder, conn.hasDyingCallback)
      else
        ([], conn.hasHolder, conn.hasDyingCallback)
    else
      ([], conn.hasHolder, conn.hasDyingCallback)
  step1.1 ++
    (if step1.2.1 && step1.2.2 then [DtorAction.invokeDyingCallback]
     else if step1.2.1 then [DtorAction.closeNativeHandle]
     else [])

/-- What a readiness or timeout delivery dispatches to on the bound
operation. -/
inductive HandlerDispatch where
  | cancelOp
  | socketActionable
  | timeoutTriggered
deriving DecidableEq, Repr

/-- ConnectionSocketHandler::handlerReady: delivery to a Completed or
Unstarted operation throws OperationStateException; a Cancelling
operation gets cancel; otherwise the socket-actionable step is invoked. -/
def handlerReady (op : Operation) :
    Except SquangleException HandlerDispatch :=
  if op.state = OperationState.Completed ∨
      op.state = OperationState.Unstarted then
    Except.error SquangleException.operationState
  else if op.state = OperationState.Cancelling then
    Except.ok HandlerDispatch.cancelOp
  else
    Except.ok HandlerDispatch.socketActionable

/-- ConnectionSocketHandler::timeoutExpired: invokes timeoutTriggered on
the bound operation. -/
def timeoutExpired (_op : Operation) : HandlerDispatch :=
  HandlerDispatch.timeoutTriggered

/-- The nonblocking status values of the underlying MySQL client
library (net_async_status). -/
inductive NetAsyncStatus where
  | NET_ASYNC_COMPLETE
  | NET_ASYNC_NOT_READY
  | NET_ASYNC_ERROR
  | NET_ASYNC_COMPLETE_NO_MORE_RESULTS
deriving DecidableEq, Repr

/-- MysqlHandler::Status, the tri-valued status of the protocol
handler. -/
inductive HandlerStatus where
  | ERROR
  | DONE
  | PENDING
deriving DecidableEq, Repr

/-- toHandlerStatus: NET_ASYNC_ERROR maps to ERROR, NET_ASYNC_COMPLETE
maps to DONE, everything else maps to PENDING. -/
def toHandlerStatus : NetAsyncStatus → HandlerStatus
  | NetAsyncStatus.NET_ASYNC_ERROR => HandlerStatus.ERROR
  | NetAsyncStatus.NET_ASYNC_COMPLETE => HandlerStatus.DONE
  | _ => HandlerStatus.PENDING

/-- AsyncMysqlHandler::fetchRow as a function of the status returned by
mysql_fetch_row_nonblocking: the translated status (the DCHECK_NE in the
source asserts it is never ERROR). -/
def fetchRow (underlyingStatus : NetAsyncStatus) : HandlerStatus :=
  toHandlerStatus underlyingStatus

/-- Postcondition of AsyncMysqlClient::drain: the block flag is set to
the argument; exactly the unstarted operations were cancelled and
removed, the others kept in order; the counter is 0 on return; the event
trace has the two critical sections in sequence and obeys the lock
discipline. -/
def drainPostcondition (s : ClientState) (block_new : Bool)
    (s2 : ClientState) (cancelledOps : List Operation)
    (tr : List DrainEvent) : Prop :=
  s2.block_operations = block_new ∧
  s2.pending_operations =
    s.pending_operations.filter
      (fun op => !(op.state == OperationState.Unstarted)) ∧
  cancelledOps =
    (s.pending_operations.filter
      (fun op => op.state == OperationState.Unstarted)).map Operation.cancel ∧
  (∀ op ∈ cancelledOps,
    op.cancelled = true ∧ op.state = OperationState.Completed) ∧
  s2.active_connection_counter = 0 ∧
  tr = [DrainEvent.acquirePendingLock, DrainEvent.setBlockFlag] ++
    cancelledOps.map DrainEvent.cancelUnstarted ++
    [DrainEvent.releasePendingLock, DrainEvent.acquireCountersLock,
     DrainEvent.cvWaitUntilZero, DrainEvent.releaseCountersLock] ∧
  drainLockSafe tr

/-- The actions every first shutdownClient call performs before the
join-or-detach decision. -/
def shutdownBaseTrace : List ShutdownAction :=
  [ShutdownAction.drainPhase false, ShutdownAction.drainPhase true,
   ShutdownAction.checkStartedAndOpenIsZero,
   ShutdownAction.checkConnectionReferencesEmpty,
   ShutdownAction.terminateLoopSoon]

/-- Postcondition of a first, off-reactor AsyncMysqlClient::shutdownClient
call: shutdown flag set, the checked quantities are zero, the action
trace is the two-phase drain, the checks, loop termination and the
thread join, and every later call returns at once with no actions. -/
def shutdownPostcondition (s2 : ClientState)
    (tr : List ShutdownAction) : Prop :=
  s2.is_shutdown = true ∧
  s2.started_and_open_connections = 0 ∧
  s2.connection_references = 0 ∧
  tr = shutdownBaseTrace ++ [ShutdownAction.joinThread] ∧
  (∀ onReactorThread u3 u4,
    shutdownClient s2 onReactorThread u3 u4 = some (s2, []))

/-- How a first shutdownClient call ends depending on the calling
thread: on the reactor thread it logs an error and detaches, never
joins; on any other thread it joins after terminating the loop, never
detaches. -/
def shutdownThreadPostcondition (trA trB : List ShutdownAction) : Prop :=
  trA = shutdownBaseTrace ++
    [ShutdownAction.logErrorShutdownFromReactor, ShutdownAction.detachThread] ∧
  ShutdownAction.joinThread ∉ trA ∧
  trB = shutdownBaseTrace ++ [ShutdownAction.joinThread] ∧
  ShutdownAction.detachThread ∉ trB

/-- What beginMultiQuery and beginMultiQueryStreaming deliver for an
empty query vector: the operation carries the client error message, was
cancelled before being returned (hence is Completed), any readiness
delivery to it raises OperationStateException rather than reaching its
socket-actionable step, and the construction effects perform no run and
no protocol call. -/
def emptyVectorOutcome
    (r : Except SquangleException (Operation × List BeginEffect)) : Prop :=
  ∃ op effects, r = Except.ok (op, effects) ∧
    op.asyncClientError = some emptyQueriesErrorMessage ∧
    op.cancelled = true ∧
    op.state = OperationState.Completed ∧
    handlerReady op = Except.error SquangleException.operationState ∧
    effects =
      [BeginEffect.addOperation, BeginEffect.setSocketHandlerOperation]

/-- Timeout arming rules of the façade constructors: query-class
operations arm exactly the positive query timeout; changeUser arms the
positive connection timeout plus one second. -/
def timeoutArmingPost (conn : Connection)
    (user password database : String) (op : Operation) : Prop :=
  ((0 < conn.conn_options.queryTimeoutMs →
      op.timeout = some conn.conn_options.queryTimeoutMs) ∧
   (¬ 0 < conn.conn_options.queryTimeoutMs → op.timeout = none)) ∧
  ((0 < conn.conn_options.queryTimeoutMs →
      (resetConn conn).1.timeout = some conn.conn_options.queryTimeoutMs) ∧
   (¬ 0 < conn.conn_options.queryTimeoutMs →
      (resetConn conn).1.timeout = none)) ∧
  ((0 < conn.conn_options.connectTimeoutMs →
      (changeUser conn user password database).1.timeout =
        some (conn.conn_options.connectTimeoutMs + oneSecondMs)) ∧
   (¬ 0 < conn.conn_options.connectTimeoutMs →
      (changeUser conn user password database).1.timeout = none))

/-- A sample query text for concrete instantiations. -/
def exampleQueryText : String := "SELECT 1"

/-- A concrete operation still unstarted. -/
def exampleUnstartedOp : Operation :=
  { kind := OpKind.QueryOp, queries := [exampleQueryText],
    state := OperationState.Unstarted, cancelled := false,
    asyncClientError := none, timeout := none }

/-- A concrete operation already pending (its run was called). -/
def examplePendingOp : Operation :=
  { kind := OpKind.MultiQueryOp, queries := [exampleQueryText],
    state := OperationState.Pending, cancelled := false,
    asyncClientError := none, timeout := some 10 }

/-- A concrete operation in the cancelling state. -/
def exampleCancellingOp : Operation :=
  { examplePendingOp with state := OperationState.Cancelling }

/-- A concrete completed operation. -/
def exampleCompletedOp : Operation :=
  { examplePendingOp with state := OperationState.Completed }

/-- A concrete client with one unstarted and one pending operation and
one active connection. -/
def exampleClientState : ClientState :=
  { pending_operations := [exampleUnstartedOp, examplePendingOp],
    block_operations := false, active_connection_counter := 1,
    is_shutdown := false, started_and_open_connections := 0,
    connection_references := 0 }

/-- The client of exampleClientState after drain(false) with the
counter released once. -/
def exampleStateAfterDrain : ClientState :=
  { exampleClientState with
      pending_operations := [examplePendingOp],
      active_connection_counter := 0 }

/-- The operations drain cancels on exampleClientState. -/
def exampleCancelledOps : List Operation :=
  [exampleUnstartedOp.cancel]

/-- The drain event trace on exampleClientState. -/
def exampleDrainTrace : List DrainEvent :=
  [DrainEvent.acquirePendingLock, DrainEvent.setBlockFlag,
   DrainEvent.cancelUnstarted exampleUnstartedOp.cancel,
   DrainEvent.releasePendingLock, DrainEvent.acquireCountersLock,
   DrainEvent.cvWaitUntilZero, DrainEvent.releaseCountersLock]

/-- The client of exampleClientState after a completed shutdownClient. -/
def exampleStateAfterShutdown : ClientState :=
  { pending_operations := [examplePendingOp], block_operations := true,
    active_connection_counter := 0, is_shutdown := true,
    started_and_open_connections := 0, connection_references := 0 }

/-- Concrete connection options with both timeouts positive and the
reset-before-close machinery enabled. -/
def exampleOptions : ConnectionOptions :=
  { queryTimeoutMs := 50, connectTimeoutMs := 30,
    enableResetConnBeforeClose := true, enableDelayedResetConn := true }

/-- A concrete healthy connection eligible for the reset-before-recycle
branch of the destructor. -/
def exampleConnection : Connection :=
  { hasHolder := true, connOk := true, hasDyingCallback := true,
    needToCloneConnection := true, reusable := true, inTransaction := false,
    operation_in_progress := false, conn_options := exampleOptions }

/-- A concrete connection with a holder but no dying callback. -/
def exampleCallbackFreeConnection : Connection :=
  { exampleConnection with hasDyingCallback := false }

/-- A sample user name. -/
def exampleUser : String := "user"

/-- A sample password. -/
def examplePassword : String := "secret"

/-- A sample database name. -/
def exampleDatabase : String := "db"

/-- The operation beginAnyQuery builds on exampleConnection for a
single query. -/
def exampleBuiltOp : Operation :=
  { kind := OpKind.QueryOp, queries := [exampleQueryText],
    state := OperationState.Unstarted, cancelled := false,
    asyncClientError := none, timeout := some 50 }

/-- The sweep of drain keeps exactly the non-unstarted operations in
order and cancels exactly the unstarted ones in order. -/
theorem drainSweep_eq (l : List Operation) :
    drainSweep l =
      (l.filter (fun op => !(op.state == OperationState.Unstarted)),
       (l.filter (fun op => op.state == OperationState.Unstarted)).map
         Operation.cancel) := by
  induction l with
  | nil => rfl
  | cons op rest ih =>
      by_cases h : op.state = OperationState.Unstarted <;>
        simp [drainSweep, ih, List.filter_cons, h]

/-- The condition-variable wait only ever returns the value 0. -/
theorem waitForZero_eq_zero (updates : List Nat) :
    ∀ n c, waitForZero n updates = some c → c = 0 := by
  induction updates with
  | nil =>
      intro n c h
      cases n with
      | zero => simpa [waitForZero] using h.symm
      | succ m => simp [waitForZero] at h
  | cons v rest ih =>
      intro n c h
      cases n with
      | zero => simpa [waitForZero] using h.symm
      | succ m => exact ih v c h

/-- Cancelling an unstarted operation marks it cancelled and completed. -/
theorem cancel_unstarted_fields (op : Operation)
    (h : op.state = OperationState.Unstarted) :
    op.cancel.cancelled = true ∧
      op.cancel.state = OperationState.Completed := by
  simp [Operation.cancel, h]

/-- Lock bookkeeping over a block of cancellation events: the lock
state stays (pending held, counters free) throughout. -/
theorem lockTrace_cancels (cs : List Operation) (tail : List DrainEvent) :
    lockTrace (cs.map DrainEvent.cancelUnstarted ++ tail) true false =
      cs.map (fun op => (DrainEvent.cancelUnstarted op, true, false)) ++
        lockTrace tail true false := by
  induction cs with
  | nil => rfl
  | cons c rest ih => simp [lockTrace, ih]

/-- The trace drain produces obeys the lock discipline for any block of
cancelled operations. -/
theorem drain_trace_lockSafe (cs : List Operation) :
    drainLockSafe ([DrainEvent.acquirePendingLock, DrainEvent.setBlockFlag] ++
      cs.map DrainEvent.cancelUnstarted ++
      [DrainEvent.releasePendingLock, DrainEvent.acquireCountersLock,
       DrainEvent.cvWaitUntilZero, DrainEvent.releaseCountersLock]) := by
  intro x hx
  have heq1 : lockTrace
      ([DrainEvent.acquirePendingLock, DrainEvent.setBlockFlag] ++
        cs.map DrainEvent.cancelUnstarted ++
        [DrainEvent.releasePendingLock, DrainEvent.acquireCountersLock,
         DrainEvent.cvWaitUntilZero, DrainEvent.releaseCountersLock])
      false false =
      (DrainEvent.acquirePendingLock, true, false) ::
        (DrainEvent.setBlockFlag, true, false) ::
        lockTrace (cs.map DrainEvent.cancelUnstarted ++
          [DrainEvent.releasePendingLock, DrainEvent.acquireCountersLock,
           DrainEvent.cvWaitUntilZero, DrainEvent.releaseCountersLock])
          true false := rfl
  have heq2 : lockTrace
      [DrainEvent.releasePendingLock, DrainEvent.acquireCountersLock,
       DrainEvent.cvWaitUntilZero, DrainEvent.releaseCountersLock]
      true false =
      [(DrainEvent.releasePendingLock, false, false),
       (DrainEvent.acquireCountersLock, false, true),
       (DrainEvent.cvWaitUntilZero, false, true),
       (DrainEvent.releaseCountersLock, false, false)] := rfl
  rw [heq1, lockTrace_cancels, heq2] at hx
  simp only [List.mem_cons, List.mem_append, List.mem_map] at hx
  rcases hx with rfl | rfl | ⟨op, -, rfl⟩ | rfl | rfl | rfl | rfl | h
  · exact ⟨by simp, by simp, by simp [DrainEvent.isCancelEvent], by simp⟩
  · exact ⟨by simp, by simp, by simp [DrainEvent.isCancelEvent], by simp⟩
  · exact ⟨by simp, by simp, by simp, by simp⟩
  · exact ⟨by simp, by simp, by simp [DrainEvent.isCancelEvent], by simp⟩
  · exact ⟨by simp, by simp, by simp [DrainEvent.isCancelEvent], by simp⟩
  · exact ⟨by simp, by simp, by simp [DrainEvent.isCancelEvent], by simp⟩
  · exact ⟨by simp, by simp, by simp [DrainEvent.isCancelEvent], by simp⟩
  · exact absurd h (List.not_mem_nil _)

/-- Unfolding drain into its successful shape: the sweep result and the
final trace, gated on the condition-variable wait. -/
theorem drain_eq (s : ClientState) (b : Bool) (u : List Nat) :
    drain s b u =
      match waitForZero s.active_connection_counter u with
      | none => none
      | some c =>
          some ({ s with
                    block_operations := b,
                    pending_operations := (drainSweep s.pending_operations).1,
                    active_connection_counter := c },
            (drainSweep s.pending_operations).2,
            [DrainEvent.acquirePendingLock, DrainEvent.setBlockFlag] ++
              (drainSweep s.pending_operations).2.map
                DrainEvent.cancelUnstarted ++
              [DrainEvent.releasePendingLock, DrainEvent.acquireCountersLock,
               DrainEvent.cvWaitUntilZero, DrainEvent.releaseCountersLock]) :=
  rfl

/-- C1: drain(block_new) first, holding the pending-set lock, sets the
block-new-operations flag to block_new and cancels and removes from the
pending set exactly the operations whose state is Unstarted, leaving all
others in place; it then releases that lock and, holding only the
counters lock, waits on the active-connections condition variable until
the active-connection counter equals 0, the two locks never being held
at the same time. -/
theorem drain_spec (s : ClientState) (block_new : Bool)
    (counterUpdates : List Nat) (s2 : ClientState)
    (cancelledOps : List Operation) (tr : List DrainEvent)
    (h : drain s block_new counterUpdates = some (s2, cancelledOps, tr)) :
    drainPostcondition s block_new s2 cancelledOps tr := by
  rw [drain_eq] at h
  split at h
  · exact absurd h (by simp)
  · rename_i c0 hw
    have hc0 : c0 = 0 := waitForZero_eq_zero _ _ _ hw
    rw [drainSweep_eq] at h
    simp only [Option.some.injEq, Prod.mk.injEq] at h
    obtain ⟨hstate, hops, htr⟩ := h
    subst hstate hops htr
    subst hc0
    refine ⟨rfl, rfl, rfl, ?_, rfl, rfl, drain_trace_lockSafe _⟩
    intro op hop
    simp only [List.mem_map, List.mem_filter] at hop
    obtain ⟨o, ⟨-, ho⟩, rfl⟩ := hop
    exact cancel_unstarted_fields o (by simpa using ho)

/-- C1 witness: the drain postcondition on a concrete client holding
one unstarted and one pending operation, with one counter release. -/
theorem drain_spec_witness :
    drainPostcondition exampleClientState false exampleStateAfterDrain
      exampleCancelledOps exampleDrainTrace :=
  drain_spec exampleClientState false [0] exampleStateAfterDrain
    exampleCancelledOps exampleDrainTrace (by decide)

/-- Unfolding shutdownClient into its decision structure. -/
theorem shutdownClient_eq (s : ClientState) (r : Bool) (u1 u2 : List Nat) :
    shutdownClient s r u1 u2 =
      if s.is_shutdown then some (s, [])
      else
        match drain { s with is_shutdown := true } false u1 with
        | none => none
        | some (s1, _, _) =>
            match drain s1 true u2 with
            | none => none
            | some (s2, _, _) =>
                if s2.started_and_open_connections ≠ 0 then none
                else if s2.connection_references ≠ 0 then none
                else
                  some (s2, shutdownBaseTrace ++
                    (if r then
                      [ShutdownAction.logErrorShutdownFromReactor,
                       ShutdownAction.detachThread]
                     else [ShutdownAction.joinThread])) :=
  rfl

/-- drain leaves the shutdown flag and the two shutdown-checked
quantities unchanged. -/
theorem drain_preserves_flags (s : ClientState) (b : Bool) (u : List Nat)
    (t : ClientState) (c : List Operation) (tr : List DrainEvent)
    (h : drain s b u = some (t, c, tr)) :
    t.is_shutdown = s.is_shutdown ∧
    t.started_and_open_connections = s.started_and_open_connections ∧
    t.connection_references = s.connection_references := by
  rw [drain_eq] at h
  split at h
  · exact absurd h (by simp)
  · simp only [Option.some.injEq, Prod.mk.injEq] at h
    obtain ⟨hstate, -, -⟩ := h
    subst hstate
    exact ⟨rfl, rfl, rfl⟩

/-- A first call to shutdownClient (flag still clear) that returns has
set the flag, seen both checked quantities at zero, and performed the
two drains, the checks, loop termination, and the join or detach chosen
by the calling thread. -/
theorem shutdownClient_first (s : ClientState) (r : Bool) (u1 u2 : List Nat)
    (s2 : ClientState) (tr : List ShutdownAction)
    (h0 : s.is_shutdown = false)
    (h : shutdownClient s r u1 u2 = some (s2, tr)) :
    s2.is_shutdown = true ∧
    s2.started_and_open_connections = 0 ∧
    s2.connection_references = 0 ∧
    tr = shutdownBaseTrace ++
      (if r then
        [ShutdownAction.logErrorShutdownFromReactor,
         ShutdownAction.detachThread]
       else [ShutdownAction.joinThread]) := by
  rw [shutdownClient_eq, h0] at h
  simp only [Bool.false_eq_true, if_false] at h
  split at h
  · exact absurd h (by simp)
  · rename_i s1 c1 tr1 hd1
    split at h
    · exact absurd h (by simp)
    · rename_i t2 c2 tr2 hd2
      have hflags1 := drain_preserves_flags _ _ _ _ _ _ hd1
      have hflags2 := drain_preserves_flags _ _ _ _ _ _ hd2
      split at h
      · exact absurd h (by simp)
      · split at h
        · exact absurd h (by simp)
        · rename_i hstarted hrefs
          simp only [Option.some.injEq, Prod.mk.injEq] at h
          obtain ⟨hs2, htr⟩ := h
          subst hs2 htr
          refine ⟨?_, by omega, by omega, rfl⟩
          rw [hflags2.1, hflags1.1]

/-- C2: shutdown is idempotent: the first shutdownClient call performs
the two-phase drain, checks that started-and-open connections and the
connection-reference set are zero and empty, terminates the loop and
joins the reactor thread; every later call on the same client sees the
atomic shutdown flag already set and returns at once, doing none of
those steps. -/
theorem shutdownClient_idempotent (s : ClientState) (u1 u2 : List Nat)
    (s2 : ClientState) (tr : List ShutdownAction)
    (h0 : s.is_shutdown = false)
    (h : shutdownClient s false u1 u2 = some (s2, tr)) :
    shutdownPostcondition s2 tr := by
  obtain ⟨h1, h2, h3, h4⟩ := shutdownClient_first s false u1 u2 s2 tr h0 h
  refine ⟨h1, h2, h3, by simpa using h4, ?_⟩
  intro r u3 u4
  rw [shutdownClient_eq, h1]
  simp

/-- C2 witness: the shutdown postcondition on a concrete client, with
the subsequent-call no-op included. -/
theorem shutdownClient_idempotent_witness :
    shutdownPostcondition exampleStateAfterShutdown
      (shutdownBaseTrace ++ [ShutdownAction.joinThread]) :=
  shutdownClient_idempotent exampleClientState [0] [0]
    exampleStateAfterShutdown
    (shutdownBaseTrace ++ [ShutdownAction.joinThread]) rfl (by decide)

/-- C3: a first shutdownClient call executed on the reactor thread
itself ends, after draining and instructing the loop to terminate, by
logging an error and detaching the reactor thread, never joining it; on
any other thread it joins the reactor thread after terminating the
loop, never detaching it. -/
theorem shutdownClient_reactor_thread (s sA sB : ClientState)
    (u1 u2 u3 u4 : List Nat) (trA trB : List ShutdownAction)
    (h0 : s.is_shutdown = false)
    (hA : shutdownClient s true u1 u2 = some (sA, trA))
    (hB : shutdownClient s false u3 u4 = some (sB, trB)) :
    shutdownThreadPostcondition trA trB := by
  obtain ⟨-, -, -, h4A⟩ := shutdownClient_first s true u1 u2 sA trA h0 hA
  obtain ⟨-, -, -, h4B⟩ := shutdownClient_first s false u3 u4 sB trB h0 hB
  subst h4A h4B
  exact ⟨by simp, by decide, by simp, by decide⟩

/-- C3 witness: the reactor-thread and off-thread traces of a concrete
first shutdown. -/
theorem shutdownClient_reactor_thread_witness :
    shutdownThreadPostcondition
      (shutdownBaseTrace ++
        [ShutdownAction.logErrorShutdownFromReactor,
         ShutdownAction.detachThread])
      (shutdownBaseTrace ++ [ShutdownAction.joinThread]) :=
  shutdownClient_reactor_thread exampleClientState
    exampleStateAfterShutdown exampleStateAfterShutdown
    [0] [0] [0] [0]
    (shutdownBaseTrace ++
      [ShutdownAction.logErrorShutdownFromReactor,
       ShutdownAction.detachThread])
    (shutdownBaseTrace ++ [ShutdownAction.joinThread])
    rfl (by decide) (by decide)

/-- C4: a MultiQuery or streaming MultiQuery constructed from an empty
vector of queries is returned to the caller already carrying the client
error message about the empty vector and already cancelled (hence
Completed), and no protocol call is ever issued for it: the
construction effects contain no run, and any readiness delivery to the
operation raises OperationStateException instead of reaching its
socket-actionable step. -/
theorem beginMultiQuery_empty_spec (conn : Connection)
    (hok : conn.connOk = true)
    (hprog : conn.operation_in_progress = false) :
    emptyVectorOutcome (beginMultiQuery conn []) ∧
    emptyVectorOutcome (beginMultiQueryStreaming conn []) := by
  constructor
  · refine ⟨{ kind := OpKind.MultiQueryOp,
              queries := [],
              state := OperationState.Completed,
              cancelled := true,
              asyncClientError := some emptyQueriesErrorMessage,
              timeout := if 0 < conn.conn_options.queryTimeoutMs then
                some conn.conn_options.queryTimeoutMs else none },
      [BeginEffect.addOperation, BeginEffect.setSocketHandlerOperation],
      ?_, rfl, rfl, rfl, rfl, rfl⟩
    simp [beginMultiQuery, beginAnyQuery, hok, hprog,
      Operation.setAsyncClientError, Operation.cancel]
  · refine ⟨{ kind := OpKind.MultiQueryStreamOp,
              queries := [],
              state := OperationState.Completed,
              cancelled := true,
              asyncClientError := some emptyQueriesErrorMessage,
              timeout := if 0 < conn.conn_options.queryTimeoutMs then
                some conn.conn_options.queryTimeoutMs else none },
      [BeginEffect.addOperation, BeginEffect.setSocketHandlerOperation],
      ?_, rfl, rfl, rfl, rfl, rfl⟩
    simp [beginMultiQueryStreaming, beginAnyQuery, hok, hprog,
      Operation.setAsyncClientError, Operation.cancel]

/-- C4 witness: the empty-vector outcome on a concrete healthy
connection. -/
theorem beginMultiQuery_empty_spec_witness :
    emptyVectorOutcome (beginMultiQuery exampleConnection []) ∧
    emptyVectorOutcome (beginMultiQueryStreaming exampleConnection []) :=
  beginMultiQuery_empty_spec exampleConnection rfl rfl

/-- C5: when the reset-before-recycle guard of the Connection
destructor holds, outside the reactor thread the holder is stolen into
a fresh clone whose dying callback is moved from the original, a reset
closure is scheduled on the reactor and the destructor waits for its
completion; on the reactor thread with delayed reset enabled the holder
is marked needs-reset-before-reuse and recycled immediately. When the
guard does not hold, a present holder with a dying callback is handed
to the callback, and a holder without a callback is closed. -/
theorem connectionDtor_spec (conn : Connection)
    (isInEventBaseThread : Bool) :
    (resetBranchCond conn = true →
       connectionDtor conn false =
         [DtorAction.stealHolder, DtorAction.constructClone,
          DtorAction.moveDyingCallbackToClone,
          DtorAction.scheduleOnReactor
            [BeginEffect.addOperation, BeginEffect.runOperation],
          DtorAction.waitForReset]) ∧
    (resetBranchCond conn = true →
     conn.conn_options.enableDelayedResetConn = true →
       connectionDtor conn true =
         [DtorAction.markNeedsResetBeforeReuse,
          DtorAction.invokeDyingCallback]) ∧
    (resetBranchCond conn = false → conn.hasHolder = true →
     conn.hasDyingCallback = true →
       connectionDtor conn isInEventBaseThread =
         [DtorAction.invokeDyingCallback]) ∧
    (conn.hasHolder = true → conn.hasDyingCallback = false →
       connectionDtor conn isInEventBaseThread =
         [DtorAction.closeNativeHandle]) := by
  refine ⟨?_, ?_, ?_, ?_⟩
  · intro hb
    simp [connectionDtor, hb]
  · intro hb hd
    have hb2 := hb
    simp only [resetBranchCond, Bool.and_eq_true] at hb2
    obtain ⟨⟨⟨⟨⟨hHolder, hCb⟩, -⟩, -⟩, -⟩, -⟩ := hb2
    simp [connectionDtor, hb, hd, hHolder, hCb]
  · intro hb hh hc
    simp [connectionDtor, hb, hh, hc]
  · intro hh hc
    have hb : resetBranchCond conn = false := by
      simp [resetBranchCond, hc]
    simp [connectionDtor, hb, hh, hc]

/-- C5 witness: the three destructor traces on concrete connections. -/
theorem connectionDtor_spec_witness :
    connectionDtor exampleConnection false =
      [DtorAction.stealHolder, DtorAction.constructClone,
       DtorAction.moveDyingCallbackToClone,
       DtorAction.scheduleOnReactor
         [BeginEffect.addOperation, BeginEffect.runOperation],
       DtorAction.waitForReset] ∧
    connectionDtor exampleConnection true =
      [DtorAction.markNeedsResetBeforeReuse,
       DtorAction.invokeDyingCallback] ∧
    connectionDtor exampleCallbackFreeConnection false =
      [DtorAction.closeNativeHandle] :=
  ⟨(connectionDtor_spec exampleConnection false).1 (by decide),
   (connectionDtor_spec exampleConnection true).2.1 (by decide) (by decide),
   (connectionDtor_spec exampleCallbackFreeConnection false).2.2.2
     (by decide) (by decide)⟩

/-- C6: the reset operation spawned for a dying connection is never
added to the pending set by the constructing path: resetConn performs
no addOperation, and any closure the destructor schedules on the
reactor adds the operation there and runs it immediately afterwards. -/
theorem resetConn_defers_addOperation (conn : Connection)
    (isInEventBaseThread : Bool) :
    BeginEffect.addOperation ∉ (resetConn conn).2 ∧
    (∀ closure, DtorAction.scheduleOnReactor closure ∈
        connectionDtor conn isInEventBaseThread →
      closure = [BeginEffect.addOperation, BeginEffect.runOperation]) := by
  constructor
  · simp [resetConn]
  · intro closure hmem
    by_cases hb : resetBranchCond conn <;>
      by_cases he : isInEventBaseThread <;>
      by_cases hd : conn.conn_options.enableDelayedResetConn <;>
      by_cases hh : conn.hasHolder <;>
      by_cases hc : conn.hasDyingCallback <;>
      simp_all [connectionDtor]

/-- C6 witness: on a concrete eligible connection the constructing path
emits no addOperation and the scheduled closure adds then runs. -/
theorem resetConn_defers_addOperation_witness :
    BeginEffect.addOperation ∉ (resetConn exampleConnection).2 ∧
    [BeginEffect.addOperation, BeginEffect.runOperation] =
      [BeginEffect.addOperation, BeginEffect.runOperation] :=
  ⟨(resetConn_defers_addOperation exampleConnection false).1,
   (resetConn_defers_addOperation exampleConnection false).2
     [BeginEffect.addOperation, BeginEffect.runOperation] (by decide)⟩

/-- C7: a readiness delivery to a Completed or Unstarted operation
raises OperationStateException; a Cancelling operation gets cancel
instead of its socket-actionable step; a Pending operation gets the
socket-actionable step; timeout expiry invokes timeout-triggered. -/
theorem handlerReady_spec (op : Operation) :
    ((op.state = OperationState.Completed ∨
      op.state = OperationState.Unstarted) →
       handlerReady op = Except.error SquangleException.operationState) ∧
    (op.state = OperationState.Cancelling →
       handlerReady op = Except.ok HandlerDispatch.cancelOp) ∧
    (op.state = OperationState.Pending →
       handlerReady op = Except.ok HandlerDispatch.socketActionable) ∧
    timeoutExpired op = HandlerDispatch.timeoutTriggered := by
  refine ⟨?_, ?_, ?_, rfl⟩
  · rintro (h | h) <;> simp [handlerReady, h]
  · intro h
    simp [handlerReady, h]
  · intro h
    simp [handlerReady, h]

/-- C7 witness: the dispatch on concrete operations in each state. -/
theorem handlerReady_spec_witness :
    handlerReady exampleCompletedOp =
      Except.error SquangleException.operationState ∧
    handlerReady exampleUnstartedOp =
      Except.error SquangleException.operationState ∧
    handlerReady exampleCancellingOp = Except.ok HandlerDispatch.cancelOp ∧
    handlerReady examplePendingOp =
      Except.ok HandlerDispatch.socketActionable ∧
    timeoutExpired examplePendingOp = HandlerDispatch.timeoutTriggered :=
  ⟨(handlerReady_spec exampleCompletedOp).1 (Or.inl rfl),
   (handlerReady_spec exampleUnstartedOp).1 (Or.inr rfl),
   (handlerReady_spec exampleCancellingOp).2.1 rfl,
   (handlerReady_spec examplePendingOp).2.2.1 rfl,
   (handlerReady_spec examplePendingOp).2.2.2⟩

/-- C8: the protocol handler translates the underlying nonblocking
status into exactly three values: ERROR exactly for NET_ASYNC_ERROR,
DONE exactly for NET_ASYNC_COMPLETE, PENDING for everything else; and
under the library contract that the fetch-row primitive never reports
an error, fetchRow never yields ERROR. -/
theorem toHandlerStatus_spec (s : NetAsyncStatus) :
    (toHandlerStatus s = HandlerStatus.ERROR ↔
      s = NetAsyncStatus.NET_ASYNC_ERROR) ∧
    (toHandlerStatus s = HandlerStatus.DONE ↔
      s = NetAsyncStatus.NET_ASYNC_COMPLETE) ∧
    (toHandlerStatus s = HandlerStatus.PENDING ↔
      (s ≠ NetAsyncStatus.NET_ASYNC_ERROR ∧
       s ≠ NetAsyncStatus.NET_ASYNC_COMPLETE)) ∧
    (s ≠ NetAsyncStatus.NET_ASYNC_ERROR →
      fetchRow s ≠ HandlerStatus.ERROR) := by
  cases s <;> simp [toHandlerStatus, fetchRow]

/-- C8 witness: the translation and the fetch-row contract at concrete
statuses. -/
theorem toHandlerStatus_spec_witness :
    toHandlerStatus NetAsyncStatus.NET_ASYNC_NOT_READY =
      HandlerStatus.PENDING ∧
    fetchRow NetAsyncStatus.NET_ASYNC_COMPLETE ≠ HandlerStatus.ERROR :=
  ⟨((toHandlerStatus_spec NetAsyncStatus.NET_ASYNC_NOT_READY).2.2.1).mpr
     (by decide),
   (toHandlerStatus_spec NetAsyncStatus.NET_ASYNC_COMPLETE).2.2.2
     (by decide)⟩

/-- C9: a timeout is armed exactly when the configured duration is
strictly positive: query-class operations built by beginAnyQuery and
reset operations arm the query timeout itself, and changeUser, when
the connection timeout is positive, arms that timeout plus one second. -/
theorem timeout_arming_spec (conn : Connection) (kind : OpKind)
    (queries : List String) (user password database : String)
    (op : Operation) (effects : List BeginEffect)
    (h : beginAnyQuery conn kind queries = Except.ok (op, effects)) :
    timeoutArmingPost conn user password database op := by
  have hop : op.timeout =
      if 0 < conn.conn_options.queryTimeoutMs then
        some conn.conn_options.queryTimeoutMs
      else none := by
    unfold beginAnyQuery at h
    split at h
    · exact absurd h (by simp)
    · split at h
      · exact absurd h (by simp)
      · simp only [Except.ok.injEq, Prod.mk.injEq] at h
        obtain ⟨hop2, -⟩ := h
        rw [← hop2]
  refine ⟨⟨?_, ?_⟩, ⟨?_, ?_⟩, ⟨?_, ?_⟩⟩ <;> intro hq <;>
    simp [hop, resetConn, changeUser, hq]

/-- C9 witness: the armed timeouts of the operation built on a concrete
connection with positive timeouts. -/
theorem timeout_arming_spec_witness :
    timeoutArmingPost exampleConnection exampleUser examplePassword
      exampleDatabase exampleBuiltOp :=
  timeout_arming_spec exampleConnection OpKind.QueryOp [exampleQueryText]
    exampleUser examplePassword exampleDatabase exampleBuiltOp
    [BeginEffect.addOperation, BeginEffect.setSocketHandlerOperation]
    (by decide)

/-- C10: the single-query overloads of beginMultiQuery,
beginMultiQueryStreaming and multiQuery are each exactly the
corresponding vector overload applied to the one-element vector, so
they produce identical results. -/
theorem singleQuery_overloads_delegate (conn : Connection)
    (query : String) :
    beginMultiQuerySingle conn query = beginMultiQuery conn [query] ∧
    beginMultiQueryStreamingSingle conn query =
      beginMultiQueryStreaming conn [query] ∧
    multiQuerySingle conn query = multiQuery conn [query] :=
  ⟨rfl, rfl, rfl⟩

end Squangle
